import Mathlib

/-!
# Verification of the RecoNIC diagnostic harness

A shallow embedding of `examples/rdma_test/simple_read.c` and
`examples/register_test/register_test.c` / `register_test_arm.c`,
together with proofs about the embedded operations.

External effects (socket calls, device allocation, DMA transfers,
register stores) are modelled by an explicit environment record whose
fields carry the results the external world returns; the embedded
functions thread that environment and additionally produce a trace of
the external calls they perform, in order.
-/

namespace RecoNic

/-! ## Byte-order codec for the rendezvous message -/

/-- Modelled from the spec: `htonll` is defined in `rdma_test.h`, which is
not under `src/`; the spec fixes the coordination wire message as
"8 bytes, big-endian (network byte order), the provider's buffer address
as an unsigned 64-bit integer". `htonll a` is that big-endian byte
serialization of `a`. -/
def htonll (a : Nat) : List Nat :=
  [a / 2 ^ 56 % 256, a / 2 ^ 48 % 256, a / 2 ^ 40 % 256, a / 2 ^ 32 % 256,
   a / 2 ^ 24 % 256, a / 2 ^ 16 % 256, a / 2 ^ 8 % 256, a % 256]

/-- Modelled from the spec: `ntohll` is defined in `rdma_test.h`, which is
not under `src/`; it decodes the 8-byte big-endian coordination message
back into an unsigned 64-bit integer. -/
def ntohll (bs : List Nat) : Nat :=
  bs.foldl (fun acc b => acc * 256 + b) 0

/-! ## Golden pattern (simple_read.c lines 411-432 and 648-651) -/

/-- The words the server seeds its data buffer with:
`test_data[i] = i % 256` for `i < payload_size / 4`
(simple_read.c lines 415-417 and 429-431; both the device-memory and the
host-memory branch run the same loop body). -/
def server_test_data (payload_size : Nat) : List Nat :=
  (List.range (payload_size / 4)).map (fun i => i % 256)

/-- The words the client regenerates for verification:
`golden_data[i] = i % 256` for `i < payload_size / 4`
(simple_read.c lines 648-651). -/
def client_golden_data (payload_size : Nat) : List Nat :=
  (List.range (payload_size / 4)).map (fun i => i % 256)

/-! ## Verification loop (simple_read.c lines 654-664)

For each word index, a mismatch between the received word and the golden
word increments the error counter, and the mismatch triple
`(index, expected, actual)` is printed only while fewer than 10 errors
have been counted so far. -/

/-- One iteration of the client's verification loop: `acc.1` is the error
count so far, `acc.2` the list of printed mismatch triples. -/
def verify_step (received golden : Nat → Nat) (acc : Nat × List (Nat × Nat × Nat))
    (i : Nat) : Nat × List (Nat × Nat × Nat) :=
  if received i ≠ golden i then
    (acc.1 + 1, if acc.1 < 10 then acc.2 ++ [(i, golden i, received i)] else acc.2)
  else acc

/-- The client's verification loop over `n = payload_size / 4` words,
returning the final error count and the printed mismatch triples. -/
def verify_loop (n : Nat) (received golden : Nat → Nat) :
    Nat × List (Nat × Nat × Nat) :=
  (List.range n).foldl (verify_step received golden) (0, [])

/-- Characterization of the verification fold from an arbitrary starting
accumulator: the count grows by the number of mismatching indices, and
the printed triples are extended by the first `10 - e` mismatch triples. -/
theorem verify_fold_spec (received golden : Nat → Nat) (l : List Nat)
    (e : Nat) (p : List (Nat × Nat × Nat)) :
    l.foldl (verify_step received golden) (e, p) =
      (e + (l.filter (fun i => decide (received i ≠ golden i))).length,
       p ++ ((l.filter (fun i => decide (received i ≠ golden i))).map
         (fun i => (i, golden i, received i))).take (10 - e)) := by
  induction l generalizing e p with
  | nil => simp
  | cons i l ih =>
    by_cases h : received i = golden i
    · simp [List.foldl_cons, verify_step, h, ih, List.filter_cons]
    · by_cases he : e < 10
      · have h10 : 10 - e = (10 - (e + 1)) + 1 := by omega
        simp [List.foldl_cons, verify_step, h, he, ih, List.filter_cons, h10,
          List.take_succ_cons]
        omega
      · have h10 : 10 - e = 0 := by omega
        have h11 : 10 - (e + 1) = 0 := by omega
        simp [List.foldl_cons, verify_step, h, he, ih, List.filter_cons, h10, h11]
        omega

/-- `verify_loop` counts exactly the mismatching indices and prints the
first ten mismatch triples. -/
theorem verify_loop_spec (n : Nat) (received golden : Nat → Nat) :
    verify_loop n received golden =
      (((List.range n).filter (fun i => decide (received i ≠ golden i))).length,
       (((List.range n).filter (fun i => decide (received i ≠ golden i))).map
         (fun i => (i, golden i, received i))).take 10) := by
  unfold verify_loop
  rw [verify_fold_spec]
  simp

/-- Among the word indices below `n`, exactly `(n + 255) / 256` have a
golden-pattern value of zero (the multiples of 256). -/
theorem count_pattern_zero (n : Nat) :
    ((List.range n).filter (fun i => decide (i % 256 = 0))).length =
      (n + 255) / 256 := by
  induction n with
  | zero => simp
  | succ n ih =>
    rw [List.range_succ, List.filter_append, List.length_append, ih]
    by_cases h : n % 256 = 0
    · simp [List.filter_cons, h]
      omega
    · simp [List.filter_cons, h]
      omega

/-- Among the word indices below `n`, exactly `n - (n + 255) / 256` have a
nonzero golden-pattern value. -/
theorem count_pattern_nonzero (n : Nat) :
    ((List.range n).filter (fun i => decide ((0 : Nat) ≠ i % 256))).length =
      n - (n + 255) / 256 := by
  induction n with
  | zero => simp
  | succ n ih =>
    rw [List.range_succ, List.filter_append, List.length_append, ih]
    by_cases h : n % 256 = 0
    · simp [List.filter_cons, h]
      omega
    · have h2 : (0 : Nat) ≠ n % 256 := fun hh => h hh.symm
      simp [List.filter_cons, h2]
      omega

/-! ## Configuration (simple_read.c lines 36-84) -/

/-- `rdma_config_t` (simple_read.c lines 36-53). IP strings are kept as
`Option String` so that the "required parameter" checks of
`parse_arguments` (which test the pointers for NULL) can be expressed. -/
structure Config where
  device_name : String
  pcie_resource : String
  src_ip_str : Option String
  dst_ip_str : Option String
  src_ip : Nat
  dst_ip : Nat
  tcp_port : Nat
  udp_port : Nat
  payload_size : Nat
  qp_id : Nat
  dst_qp_id : Nat
  qp_location : String
  is_server : Bool
  is_client : Bool
  verbose : Bool
  debug : Bool
deriving Repr, DecidableEq

def DEVICE_NAME_DEFAULT : String := "/dev/reconic-mm"

def PCIE_RESOURCE_DEFAULT : String := "/sys/bus/pci/devices/0005:01:00.0/resource2"

def DEFAULT_PAYLOAD_SIZE : Nat := 1024

def DEFAULT_QP_DEPTH : Nat := 64

def DEFAULT_QP_ID : Nat := 2

/-- `init_config` (simple_read.c lines 74-84): zero the structure, then
set the documented defaults. -/
def init_config : Config where
  device_name := DEVICE_NAME_DEFAULT
  pcie_resource := PCIE_RESOURCE_DEFAULT
  src_ip_str := none
  dst_ip_str := none
  src_ip := 0
  dst_ip := 0
  tcp_port := 11111
  udp_port := 22222
  payload_size := DEFAULT_PAYLOAD_SIZE
  qp_id := DEFAULT_QP_ID
  dst_qp_id := DEFAULT_QP_ID
  qp_location := "host_mem"
  is_server := false
  is_client := false
  verbose := false
  debug := false

/-- One parsed command-line option of simple_read.c (the cases of the
`getopt_long` switch, lines 146-203). Numeric options carry the value
`atoi` produced. -/
inductive Arg where
  | device (s : String)
  | pcie (s : String)
  | src_ip (s : String)
  | dst_ip (s : String)
  | tcp (n : Nat)
  | udp (n : Nat)
  | payload (n : Nat)
  | qp (n : Nat)
  | loc (s : String)
  | server
  | client
  | verbose
  | debug
  | help
deriving Repr, DecidableEq

/-- One iteration of the `getopt_long` loop of `parse_arguments`
(simple_read.c lines 146-203), parameterized by the IP-string conversion
`convert_ip_addr_to_uint` (a library routine not under `src/`).
`-h` makes `parse_arguments` return 1; an invalid `-l` argument makes it
return -1; these are the `.error` codes. -/
def applyArg (ipConv : String → Nat) (cfg : Config) (a : Arg) : Except Int Config :=
  match a with
  | .device s => .ok { cfg with device_name := s }
  | .pcie s => .ok { cfg with pcie_resource := s }
  | .src_ip s => .ok { cfg with src_ip_str := some s, src_ip := ipConv s }
  | .dst_ip s => .ok { cfg with dst_ip_str := some s, dst_ip := ipConv s }
  | .tcp n => .ok { cfg with tcp_port := n % 2 ^ 16 }
  | .udp n => .ok { cfg with udp_port := n % 2 ^ 16 }
  | .payload n => .ok { cfg with payload_size := n }
  | .qp n => .ok { cfg with qp_id := n, dst_qp_id := n }
  | .loc s =>
      if s = "host_mem" ∨ s = "dev_mem" then .ok { cfg with qp_location := s }
      else .error (-1)
  | .server => .ok { cfg with is_server := true }
  | .client => .ok { cfg with is_client := true }
  | .verbose => .ok { cfg with verbose := true }
  | .debug => .ok { cfg with debug := true, verbose := true }
  | .help => .error 1

/-- The option loop of `parse_arguments`: apply the options left to
right, stopping at the first error. -/
def apply_args (ipConv : String → Nat) : Config → List Arg → Except Int Config
  | cfg, [] => .ok cfg
  | cfg, a :: rest =>
      match applyArg ipConv cfg a with
      | .error e => .error e
      | .ok c => apply_args ipConv c rest

/-- `parse_arguments` (simple_read.c lines 126-222): run the option loop
and then the required-parameter validation (IPs present, exactly one of
server/client). Note the validation performs no check on
`payload_size`. -/
def parse_arguments (ipConv : String → Nat) (args : List Arg)
    (cfg0 : Config) : Except Int Config :=
  match apply_args ipConv cfg0 args with
  | .error e => .error e
  | .ok cfg =>
      if cfg.src_ip_str.isNone ∨ cfg.dst_ip_str.isNone then .error (-1)
      else if !cfg.is_server && !cfg.is_client then .error (-1)
      else if cfg.is_server && cfg.is_client then .error (-1)
      else .ok cfg

/-- `applyArg` preserves the invariant `qp_id = dst_qp_id`: the only case
that touches either field is `-q`, which writes the same value to both
(simple_read.c lines 171-174). -/
theorem applyArg_qp_invariant (ipConv : String → Nat) (cfg : Config) (a : Arg)
    (cfg2 : Config) (h : applyArg ipConv cfg a = .ok cfg2)
    (hinv : cfg.qp_id = cfg.dst_qp_id) : cfg2.qp_id = cfg2.dst_qp_id := by
  cases a <;> simp only [applyArg] at h <;> try split at h
  all_goals
    first
      | (injection h with h; subst h; simp [hinv])
      | injection h

/-- The option loop preserves the invariant `qp_id = dst_qp_id`. -/
theorem apply_args_qp_invariant (ipConv : String → Nat) (args : List Arg)
    (cfg cfg2 : Config) (h : apply_args ipConv cfg args = .ok cfg2)
    (hinv : cfg.qp_id = cfg.dst_qp_id) : cfg2.qp_id = cfg2.dst_qp_id := by
  induction args generalizing cfg with
  | nil =>
    simp [apply_args] at h
    simpa [← h] using hinv
  | cons a rest ih =>
    simp only [apply_args] at h
    cases ha : applyArg ipConv cfg a with
    | error e => rw [ha] at h; exact absurd h (by simp)
    | ok c =>
      rw [ha] at h
      exact ih c h (applyArg_qp_invariant ipConv cfg a c ha hinv)

/-! ## Client session (simple_read.c lines 519-695)

External effects are modelled by `ClientEnv`: each field holds the result
the corresponding external call returns. `run_rdma_client` threads the
environment through the code's control flow and records the external
calls it performs, in program order. -/

/-- `struct rdma_buff_t` as used by simple_read.c: a host-virtual pointer
(`buffer`) and a device-bus DMA address (`dma_addr`). -/
structure Buff where
  buffer : Nat
  dma_addr : Nat
deriving Repr, DecidableEq

/-- External calls the client performs, in program order
(simple_read.c lines 535-674). -/
inductive CEvent where
  | openDev
  | resolveMac
  | socketCall
  | connectCall
  | recvAddr
  | allocBuffer
  | allocPd
  | allocQP
  | configPsn
  | createWqe
  | postSend
  | retrieve
  | verifyData
  | report
deriving Repr, DecidableEq

/-- Results of the client's external calls. `recvBytes` is what `recv`
returns (the byte count), `recvData` the 8 bytes it delivered,
`postSendRet` the return code of `rdma_post_send`, and `bufferWords` the
32-bit words found in the local buffer at the RETRIEVE stage. -/
structure ClientEnv where
  openDevOk : Bool
  macOk : Bool
  socketOk : Bool
  connectOk : Bool
  recvBytes : Nat
  recvData : List Nat
  allocBufOk : Bool
  recvBuffer : Buff
  postSendRet : Int
  dmaReadOk : Bool
  bufferWords : Nat → Nat

/-- The errors the client aborts with, one per early-return of
`run_rdma_client`; `SubmitError` carries the negative `rdma_post_send`
return code the abort message reports (simple_read.c line 617). -/
inductive ClientError where
  | DeviceError
  | ResolutionError
  | ConnectError
  | ProtocolError
  | ProvisionError
  | SubmitError (code : Int)
  | RetrieveError
deriving Repr, DecidableEq

/-- What a completed client session produced: the decoded remote address,
the remote address installed in the READ work request by `create_a_wqe`,
and the verification outcome. -/
structure ClientOk where
  remoteAddr : Nat
  wqeRemote : Nat
  errors : Nat
  printed : List (Nat × Nat × Nat)
deriving Repr, DecidableEq

/-- `run_rdma_client` (simple_read.c lines 519-695): open the device,
resolve the peer MAC, connect the coordination socket, receive the 8-byte
remote address (a short `recv` is fatal, line 569), allocate the receive
buffer, provision PD/QP/PSNs, build and submit the READ work request
(a negative submit code is fatal, lines 615-620), retrieve the buffer
(DMA read-back when device-resident, lines 632-645), and verify against
the regenerated golden pattern (lines 648-664). -/
def run_rdma_client (cfg : Config) (env : ClientEnv) :
    Except ClientError ClientOk × List CEvent :=
  if !env.openDevOk then
    (.error .DeviceError, [.openDev])
  else if !env.macOk then
    (.error .ResolutionError, [.openDev, .resolveMac])
  else if !env.socketOk then
    (.error .ConnectError, [.openDev, .resolveMac, .socketCall])
  else if !env.connectOk then
    (.error .ConnectError, [.openDev, .resolveMac, .socketCall, .connectCall])
  else if env.recvBytes ≠ 8 then
    (.error .ProtocolError,
     [.openDev, .resolveMac, .socketCall, .connectCall, .recvAddr])
  else
    let remote := ntohll env.recvData
    if !env.allocBufOk then
      (.error .ProvisionError,
       [.openDev, .resolveMac, .socketCall, .connectCall, .recvAddr, .allocBuffer])
    else if env.postSendRet < 0 then
      (.error (.SubmitError env.postSendRet),
       [.openDev, .resolveMac, .socketCall, .connectCall, .recvAddr, .allocBuffer,
        .allocPd, .allocQP, .configPsn, .createWqe, .postSend])
    else if cfg.qp_location == "dev_mem" && !env.dmaReadOk then
      (.error .RetrieveError,
       [.openDev, .resolveMac, .socketCall, .connectCall, .recvAddr, .allocBuffer,
        .allocPd, .allocQP, .configPsn, .createWqe, .postSend, .retrieve])
    else
      let vr := verify_loop (cfg.payload_size / 4) env.bufferWords (fun i => i % 256)
      (.ok { remoteAddr := remote, wqeRemote := remote,
             errors := vr.1, printed := vr.2 },
       [.openDev, .resolveMac, .socketCall, .connectCall, .recvAddr, .allocBuffer,
        .allocPd, .allocQP, .configPsn, .createWqe, .postSend, .retrieve,
        .verifyData, .report])

/-! ## Server session (simple_read.c lines 380-514) -/

/-- External calls the server performs, in program order
(simple_read.c lines 393-510). -/
inductive SEvent where
  | resolveMac
  | allocBuffer
  | allocPd
  | regMem
  | seedData
  | socketCall
  | bindCall
  | listenCall
  | acceptCall
  | sendAddr
  | allocQP
  | configPsn
  | waitOperator
  | closeSock
deriving Repr, DecidableEq

/-- Results of the server's external calls. -/
structure ServerEnv where
  macOk : Bool
  allocBufOk : Bool
  dataBuffer : Buff
  dmaWriteOk : Bool
  socketOk : Bool
  bindOk : Bool
  listenOk : Bool
  acceptOk : Bool
  sendOk : Bool
deriving Repr

/-- The errors the server aborts with, one per early-return of
`run_rdma_server`. -/
inductive ServerError where
  | ResolutionError
  | ProvisionError
  | SeedError
  | ConnectError
  | ProtocolError
deriving Repr, DecidableEq

/-- What a completed server session produced: the 8 bytes sent over the
coordination socket and the words seeded into the data buffer. -/
structure ServerOk where
  sentBytes : List Nat
  seeded : List Nat
deriving Repr, DecidableEq

/-- `run_rdma_server` (simple_read.c lines 380-514): resolve the peer
MAC, allocate and register the data buffer, seed it with the test
pattern (DMA write when device-resident, lines 412-432), bind/listen/
accept the coordination socket, send `htonll((uint64_t)data_buffer->buffer)`
(lines 480-486), then provision the QP and PSNs (lines 493-499), wait for
the operator keypress and close. -/
def run_rdma_server (cfg : Config) (env : ServerEnv) :
    Except ServerError ServerOk × List SEvent :=
  if !env.macOk then
    (.error .ResolutionError, [.resolveMac])
  else if !env.allocBufOk then
    (.error .ProvisionError, [.resolveMac, .allocBuffer])
  else if cfg.qp_location == "dev_mem" && !env.dmaWriteOk then
    (.error .SeedError, [.resolveMac, .allocBuffer, .allocPd, .regMem, .seedData])
  else if !env.socketOk then
    (.error .ConnectError,
     [.resolveMac, .allocBuffer, .allocPd, .regMem, .seedData, .socketCall])
  else if !env.bindOk then
    (.error .ConnectError,
     [.resolveMac, .allocBuffer, .allocPd, .regMem, .seedData, .socketCall, .bindCall])
  else if !env.listenOk then
    (.error .ConnectError,
     [.resolveMac, .allocBuffer, .allocPd, .regMem, .seedData, .socketCall, .bindCall,
      .listenCall])
  else if !env.acceptOk then
    (.error .ConnectError,
     [.resolveMac, .allocBuffer, .allocPd, .regMem, .seedData, .socketCall, .bindCall,
      .listenCall, .acceptCall])
  else if !env.sendOk then
    (.error .ProtocolError,
     [.resolveMac, .allocBuffer, .allocPd, .regMem, .seedData, .socketCall, .bindCall,
      .listenCall, .acceptCall, .sendAddr])
  else
    (.ok { sentBytes := htonll env.dataBuffer.buffer,
           seeded := server_test_data cfg.payload_size },
     [.resolveMac, .allocBuffer, .allocPd, .regMem, .seedData, .socketCall, .bindCall,
      .listenCall, .acceptCall, .sendAddr, .allocQP, .configPsn, .waitOperator,
      .closeSock])

/-- An environment in which every external call of the server succeeds;
the data buffer sits at host-virtual address 4096 with DMA address
8192. -/
def goodServerEnv : ServerEnv where
  macOk := true
  allocBufOk := true
  dataBuffer := { buffer := 4096, dma_addr := 8192 }
  dmaWriteOk := true
  socketOk := true
  bindOk := true
  listenOk := true
  acceptOk := true
  sendOk := true

/-- An environment in which every external call of the client succeeds,
the coordination socket delivers the 8 bytes encoding address 4096, and
the retrieved buffer holds exactly the golden pattern. -/
def goodClientEnv : ClientEnv where
  openDevOk := true
  macOk := true
  socketOk := true
  connectOk := true
  recvBytes := 8
  recvData := htonll 4096
  allocBufOk := true
  recvBuffer := { buffer := 16384, dma_addr := 32768 }
  postSendRet := 0
  dmaReadOk := true
  bufferWords := fun i => i % 256

/-! ## Register test tools (register_test.c, register_test_arm.c)

The mapped BAR window is a function from byte offset to the 32-bit value
a load observes. What a store does to the window is the device's
business (a register may be read-only or self-clearing), so it is a
parameter `we`: the window after storing `v` at offset `off` into window
`regs` is `we regs off v`. Memory barriers order accesses on a real
machine; in this single-access sequential model they are no-ops. -/

/-- The mapped BAR window: byte offset to observed 32-bit value. -/
def BarState : Type := Nat → Nat

/-- The device's response to a 32-bit store: old window, offset, stored
value, new window. -/
def WriteEffect : Type := BarState → Nat → Nat → BarState

/-- `arm_read32_data` (register_test_arm.c lines 65-81): barrier, load
the 32-bit value at the byte offset, barrier. -/
def arm_read32_data (regs : BarState) (off : Nat) : Nat := regs off

/-- `arm_write32_data` (register_test_arm.c lines 83-101): barrier, store
the 32-bit value at the byte offset, barrier, then a discarded read-back
of the same location and a final barrier. -/
def arm_write32_data (we : WriteEffect) (regs : BarState) (off v : Nat) : BarState :=
  we regs off v

/-- Modelled from the spec: `read32_data` (lib/control_api, not under
`src/`) is the plain 32-bit load at a byte offset of the BAR window that
register_test.c line 196 calls. -/
def read32_data (regs : BarState) (off : Nat) : Nat := regs off

/-- Modelled from the spec: `write32_data` (lib/control_api, not under
`src/`) is the plain 32-bit store at a byte offset of the BAR window that
register_test.c line 193 calls; its effect on the window is the device's
transition `we`. -/
def write32_data (we : WriteEffect) (regs : BarState) (off v : Nat) : BarState :=
  we regs off v

/-- The outcome `test_register_write` reports: the offset and value
printed, the read-back value, whether the SUCCESS line (rather than the
WARNING line) was printed, and the function's return value. -/
structure RegResult where
  address : Nat
  written : Nat
  readBack : Nat
  matched : Bool
  ret : Int
deriving Repr, DecidableEq

/-- `test_register_write` (register_test.c lines 185-215): write the
value, read back from the same offset, print SUCCESS when the values
match and a WARNING otherwise, and return 0 either way. -/
def test_register_write (we : WriteEffect) (regs : BarState) (off v : Nat) :
    RegResult :=
  let regs2 := write32_data we regs off v
  let rb := read32_data regs2 off
  { address := off, written := v, readBack := rb, matched := v == rb, ret := 0 }

/-- `test_register_write` of register_test_arm.c (lines 228-271): the
barrier-qualified write via `arm_write32_data`, a read back from the same
offset via `arm_read32_data`, SUCCESS/WARNING on match/mismatch, and
return 0 either way. -/
def test_register_write_arm (we : WriteEffect) (regs : BarState) (off v : Nat) :
    RegResult :=
  let regs2 := arm_write32_data we regs off v
  let rb := arm_read32_data regs2 off
  { address := off, written := v, readBack := rb, matched := v == rb, ret := 0 }

/-! ## Shared helper lemmas -/

/-- Decoding the big-endian serialization of a 64-bit value recovers the
value. -/
theorem ntohll_htonll (a : Nat) (h : a < 2 ^ 64) : ntohll (htonll a) = a := by
  norm_num [htonll, ntohll]
  omega

/-! ## Concrete sessions used as evaluation points -/

/-- The configuration `parse_arguments` accepts for
`-r 192.168.1.1 -i 192.168.1.2 -c -z 0`: a client with payload size 0. -/
def cfg_payload_zero : Config :=
  { init_config with
    src_ip_str := some "192.168.1.1"
    dst_ip_str := some "192.168.1.2"
    is_client := true
    payload_size := 0 }

/-- What the fully successful server session with `goodServerEnv`
produces. -/
def goodServerOutcome : ServerOk where
  sentBytes := htonll 4096
  seeded := server_test_data 1024

/-- What the fully successful client session with `goodClientEnv`
produces. -/
def goodClientOutcome : ClientOk where
  remoteAddr := 4096
  wqeRemote := 4096
  errors := 0
  printed := []

/-- A client environment identical to `goodClientEnv` except that the
coordination `recv` returns only 3 bytes. -/
def shortRecvEnv : ClientEnv := { goodClientEnv with recvBytes := 3 }

/-- A client environment identical to `goodClientEnv` except that
`rdma_post_send` returns -5. -/
def negSubmitEnv : ClientEnv := { goodClientEnv with postSendRet := -5 }

/-! ## Claims -/

/-- C1: the spec demands that a payload size of 0 (or a non-multiple of
4) be rejected at configuration time, but `parse_arguments` performs no
check on `payload_size`: the configuration `-r ... -i ... -c -z 0` is
accepted with `payload_size = 0`, and the client session run under it
still performs queue-pair provisioning (`allocate_rdma_qp`). -/
theorem payload_zero_accepted_and_reaches_qp :
    parse_arguments (fun _ => 0)
      [.src_ip "192.168.1.1", .dst_ip "192.168.1.2", .client, .payload 0]
      init_config = .ok cfg_payload_zero ∧
    cfg_payload_zero.payload_size = 0 ∧
    CEvent.allocQP ∈ (run_rdma_client cfg_payload_zero goodClientEnv).2 := by
  refine ⟨by rfl, rfl, by decide⟩

/-- C2: whenever the coordination `recv` returns fewer than 8 bytes, the
client session aborts with `ProtocolError` and its trace never contains a
queue-pair provisioning call. -/
theorem recv_short_aborts_before_qp (cfg : Config) (env : ClientEnv)
    (h1 : env.openDevOk = true) (h2 : env.macOk = true)
    (h3 : env.socketOk = true) (h4 : env.connectOk = true)
    (h5 : env.recvBytes < 8) :
    (run_rdma_client cfg env).1 = .error .ProtocolError ∧
    CEvent.allocQP ∉ (run_rdma_client cfg env).2 := by
  have h8 : env.recvBytes ≠ 8 := by omega
  simp [run_rdma_client, h1, h2, h3, h4, h8]

/-- Witness for C2 at a concrete session: `recv` returning 3 bytes. -/
theorem recv_short_aborts_before_qp_witness :
    shortRecvEnv.openDevOk = true ∧ shortRecvEnv.macOk = true ∧
    shortRecvEnv.socketOk = true ∧ shortRecvEnv.connectOk = true ∧
    shortRecvEnv.recvBytes < 8 ∧
    ((run_rdma_client init_config shortRecvEnv).1 = .error .ProtocolError ∧
     CEvent.allocQP ∉ (run_rdma_client init_config shortRecvEnv).2) :=
  ⟨rfl, rfl, rfl, rfl, by decide,
   recv_short_aborts_before_qp init_config shortRecvEnv rfl rfl rfl rfl (by decide)⟩

/-- C3: whenever `rdma_post_send` returns a negative code, the client
session aborts with `SubmitError` carrying that code and its trace
contains neither the RETRIEVE nor the VERIFY stage. -/
theorem submit_negative_aborts_before_verify (cfg : Config) (env : ClientEnv)
    (h1 : env.openDevOk = true) (h2 : env.macOk = true)
    (h3 : env.socketOk = true) (h4 : env.connectOk = true)
    (h5 : env.recvBytes = 8) (h6 : env.allocBufOk = true)
    (h7 : env.postSendRet < 0) :
    (run_rdma_client cfg env).1 = .error (.SubmitError env.postSendRet) ∧
    CEvent.retrieve ∉ (run_rdma_client cfg env).2 ∧
    CEvent.verifyData ∉ (run_rdma_client cfg env).2 := by
  simp [run_rdma_client, h1, h2, h3, h4, h5, h6, h7]

/-- Witness for C3 at a concrete session: `rdma_post_send` returning
-5. -/
theorem submit_negative_aborts_before_verify_witness :
    negSubmitEnv.openDevOk = true ∧ negSubmitEnv.macOk = true ∧
    negSubmitEnv.socketOk = true ∧ negSubmitEnv.connectOk = true ∧
    negSubmitEnv.recvBytes = 8 ∧ negSubmitEnv.allocBufOk = true ∧
    negSubmitEnv.postSendRet < 0 ∧
    ((run_rdma_client init_config negSubmitEnv).1 =
        .error (.SubmitError negSubmitEnv.postSendRet) ∧
     CEvent.retrieve ∉ (run_rdma_client init_config negSubmitEnv).2 ∧
     CEvent.verifyData ∉ (run_rdma_client init_config negSubmitEnv).2) :=
  ⟨rfl, rfl, rfl, rfl, rfl, rfl, by decide,
   submit_negative_aborts_before_verify init_config negSubmitEnv
     rfl rfl rfl rfl rfl rfl (by decide)⟩

set_option maxRecDepth 8192 in
/-- C4, counterexample: at payload size 1024 a fully zeroed buffer yields
255 mismatches, not 1024/4 = 256, because word 0 of the golden pattern is
itself 0 and matches. -/
theorem zeroed_verify_count_counterexample :
    (verify_loop (1024 / 4) (fun _ => 0) (fun i => i % 256)).1 ≠ 1024 / 4 ∧
    (verify_loop (1024 / 4) (fun _ => 0) (fun i => i % 256)).1 = 255 := by
  decide

/-- C4, amended: for every valid payload size P, a fully zeroed buffer
yields P/4 − ⌈(P/4)/256⌉ mismatches (the golden-zero words match), and
the printed mismatches are exactly the first 10 mismatch triples. -/
theorem zeroed_verify_count_amended (P : Nat) (hd : 4 ∣ P) (hge : 4 ≤ P) :
    (verify_loop (P / 4) (fun _ => 0) (fun i => i % 256)).1 =
      P / 4 - (P / 4 + 255) / 256 ∧
    (verify_loop (P / 4) (fun _ => 0) (fun i => i % 256)).2 =
      (((List.range (P / 4)).filter (fun i => decide ((0 : Nat) ≠ i % 256))).map
        (fun i => (i, i % 256, 0))).take 10 := by
  have h := verify_loop_spec (P / 4) (fun _ => 0) (fun i => i % 256)
  simp only at h
  rw [h]
  exact ⟨count_pattern_nonzero (P / 4), rfl⟩

/-- Witness for the amended C4 at payload size 1024. -/
theorem zeroed_verify_count_amended_witness :
    (4 ∣ 1024) ∧ (4 ≤ 1024) ∧
    ((verify_loop (1024 / 4) (fun _ => 0) (fun i => i % 256)).1 =
       1024 / 4 - (1024 / 4 + 255) / 256 ∧
     (verify_loop (1024 / 4) (fun _ => 0) (fun i => i % 256)).2 =
       (((List.range (1024 / 4)).filter
           (fun i => decide ((0 : Nat) ≠ i % 256))).map
         (fun i => (i, i % 256, 0))).take 10) :=
  ⟨⟨256, rfl⟩, by decide, zeroed_verify_count_amended 1024 ⟨256, rfl⟩ (by decide)⟩

/-- C5: for every valid payload size the provider's seed pattern and the
reader's golden pattern are the same sequence, and that sequence is the
pure function of the word index `i ↦ i mod 256`. -/
theorem golden_pattern_shared_pure (P : Nat) (hd : 4 ∣ P) (hge : 4 ≤ P) :
    server_test_data P = client_golden_data P ∧
    ∀ i, i < P / 4 → (client_golden_data P).getD i 0 = i % 256 := by
  refine ⟨rfl, fun i hi => ?_⟩
  simp [client_golden_data, List.getD_eq_getElem?_getD, List.getElem?_map,
    List.getElem?_range hi]

/-- Witness for C5 at payload size 1024, word index 7. -/
theorem golden_pattern_shared_pure_witness :
    (4 ∣ 1024) ∧ (4 ≤ 1024) ∧
    server_test_data 1024 = client_golden_data 1024 ∧
    (7 < 1024 / 4 ∧ (client_golden_data 1024).getD 7 0 = 7 % 256) :=
  ⟨⟨256, rfl⟩, by decide, (golden_pattern_shared_pure 1024 ⟨256, rfl⟩ (by decide)).1,
   by decide, (golden_pattern_shared_pure 1024 ⟨256, rfl⟩ (by decide)).2 7 (by decide)⟩

/-- C6: for every 64-bit address, encoding it with `htonll` on the
provider side and decoding the 8 bytes with `ntohll` on the reader side
recovers exactly the address. -/
theorem rendezvous_roundtrip (a : Nat) (h : a < 2 ^ 64) :
    ntohll (htonll a) = a :=
  ntohll_htonll a h

/-- Witness for C6 at the address 0x0123456789ABCDEF. -/
theorem rendezvous_roundtrip_witness :
    (81985529216486895 : Nat) < 2 ^ 64 ∧
    ntohll (htonll 81985529216486895) = 81985529216486895 :=
  ⟨by norm_num, rendezvous_roundtrip 81985529216486895 (by norm_num)⟩

/-- C7, counterexample: in a fully successful server session, queue-pair
provisioning happens after the rendezvous socket is bound and after the
local buffer address is sent, not before. -/
theorem server_qp_order_counterexample :
    (run_rdma_server init_config goodServerEnv).1 = .ok goodServerOutcome ∧
    ¬((run_rdma_server init_config goodServerEnv).2.indexOf SEvent.allocQP <
        (run_rdma_server init_config goodServerEnv).2.indexOf SEvent.bindCall ∧
      (run_rdma_server init_config goodServerEnv).2.indexOf SEvent.allocQP <
        (run_rdma_server init_config goodServerEnv).2.indexOf SEvent.sendAddr) ∧
    (run_rdma_server init_config goodServerEnv).2.indexOf SEvent.sendAddr <
      (run_rdma_server init_config goodServerEnv).2.indexOf SEvent.allocQP := by
  refine ⟨rfl, by decide, by decide⟩

/-- C7, amended: every successful data-provider session performs exactly
the sequence RESOLVE_PEER, PROVISION buffer (+PD+registration),
SEED_DATA, BIND, LISTEN, ACCEPT, SEND_LOCAL_ADDR, PROVISION QP,
CONFIGURE PSNs, WAIT_FOR_OPERATOR_SIGNAL, CLOSE: buffer provisioning and
seeding precede the bind, but queue-pair provisioning completes only
after the local buffer address is sent. -/
theorem server_stage_order (cfg : Config) (env : ServerEnv) (r : ServerOk)
    (h : (run_rdma_server cfg env).1 = .ok r) :
    (run_rdma_server cfg env).2 =
      [.resolveMac, .allocBuffer, .allocPd, .regMem, .seedData, .socketCall,
       .bindCall, .listenCall, .acceptCall, .sendAddr, .allocQP, .configPsn,
       .waitOperator, .closeSock] := by
  unfold run_rdma_server at h ⊢
  split_ifs at h ⊢ <;> first | rfl | simp at h

/-- Witness for the amended C7 at a fully successful session. -/
theorem server_stage_order_witness :
    (run_rdma_server init_config goodServerEnv).1 = .ok goodServerOutcome ∧
    (run_rdma_server init_config goodServerEnv).2 =
      [.resolveMac, .allocBuffer, .allocPd, .regMem, .seedData, .socketCall,
       .bindCall, .listenCall, .acceptCall, .sendAddr, .allocQP, .configPsn,
       .waitOperator, .closeSock] :=
  ⟨by rfl, server_stage_order init_config goodServerEnv goodServerOutcome (by rfl)⟩

/-- C8: in both register test tools, `test_register_write` reads back
from the written offset, reports SUCCESS exactly when the read-back value
equals the written value, and returns 0 in both the match and the
mismatch case. -/
theorem register_write_readback_status (we : WriteEffect) (regs : BarState)
    (off v : Nat) :
    (test_register_write we regs off v).ret = 0 ∧
    ((test_register_write we regs off v).matched = true ↔
      (test_register_write we regs off v).readBack = v) ∧
    (test_register_write we regs off v).readBack = we regs off v off ∧
    (test_register_write_arm we regs off v).ret = 0 ∧
    ((test_register_write_arm we regs off v).matched = true ↔
      (test_register_write_arm we regs off v).readBack = v) ∧
    (test_register_write_arm we regs off v).readBack = we regs off v off := by
  refine ⟨rfl, ?_, rfl, rfl, ?_, rfl⟩ <;>
    · show (v == we regs off v off) = true ↔ we regs off v off = v
      rw [beq_iff_eq]
      exact eq_comm

/-- C9: the 8 bytes a successful provider sends encode the `buffer` field
of its buffer handle (its host-virtual pointer, not `dma_addr`), and a
successful reader installs exactly the decoded received value — hence
that pointer — as the remote address of its READ work request. -/
theorem rendezvous_value_is_host_pointer (cfg : Config) (senv : ServerEnv)
    (cenv : ClientEnv) (r : ServerOk) (c : ClientOk)
    (hbuf : senv.dataBuffer.buffer < 2 ^ 64)
    (hs : (run_rdma_server cfg senv).1 = .ok r)
    (hrecv : cenv.recvData = r.sentBytes)
    (hc : (run_rdma_client cfg cenv).1 = .ok c) :
    r.sentBytes = htonll senv.dataBuffer.buffer ∧
    c.wqeRemote = ntohll cenv.recvData ∧
    c.wqeRemote = senv.dataBuffer.buffer := by
  have hsent : r.sentBytes = htonll senv.dataBuffer.buffer := by
    unfold run_rdma_server at hs
    split_ifs at hs <;> simp at hs
    cases hs
    rfl
  have hwqe : c.wqeRemote = ntohll cenv.recvData := by
    unfold run_rdma_client at hc
    split_ifs at hc <;> simp at hc
    cases hc
    rfl
  exact ⟨hsent, hwqe, by rw [hwqe, hrecv, hsent, ntohll_htonll _ hbuf]⟩

set_option maxRecDepth 8192 in
/-- Witness for C9 at a concrete provider/reader pair around address
4096. -/
theorem rendezvous_value_is_host_pointer_witness :
    goodServerEnv.dataBuffer.buffer < 2 ^ 64 ∧
    (run_rdma_server init_config goodServerEnv).1 = .ok goodServerOutcome ∧
    goodClientEnv.recvData = goodServerOutcome.sentBytes ∧
    (run_rdma_client init_config goodClientEnv).1 = .ok goodClientOutcome ∧
    (goodServerOutcome.sentBytes = htonll goodServerEnv.dataBuffer.buffer ∧
     goodClientOutcome.wqeRemote = ntohll goodClientEnv.recvData ∧
     goodClientOutcome.wqeRemote = goodServerEnv.dataBuffer.buffer) :=
  ⟨by decide, by rfl, by rfl, by rfl,
   rendezvous_value_is_host_pointer init_config goodServerEnv goodClientEnv
     goodServerOutcome goodClientOutcome (by decide) (by rfl) (by rfl)
     (by rfl)⟩

/-- C10: every configuration `parse_arguments` accepts has its peer
queue-pair id equal to its local queue-pair id: both default to 2, the
`-q` option overwrites both with the same value, and no option sets them
apart. -/
theorem qp_ids_always_equal (ipConv : String → Nat) (args : List Arg)
    (cfg2 : Config) (h : parse_arguments ipConv args init_config = .ok cfg2) :
    cfg2.qp_id = cfg2.dst_qp_id := by
  cases ha : apply_args ipConv init_config args with
  | error e =>
    simp [parse_arguments, ha] at h
  | ok c =>
    simp only [parse_arguments, ha] at h
    split_ifs at h
    all_goals
      first
        | (injection h with h; subst h;
           exact apply_args_qp_invariant ipConv args init_config c ha rfl)
        | injection h

/-- A minimal accepted command line: both IPs plus the client flag. -/
def basic_args : List Arg :=
  [.src_ip "192.168.1.100", .dst_ip "192.168.1.101", .client]

/-- The configuration `parse_arguments` accepts for `basic_args`. -/
def basic_cfg : Config :=
  { init_config with
    src_ip_str := some "192.168.1.100"
    dst_ip_str := some "192.168.1.101"
    is_client := true }

/-- Witness for C10 at a concrete accepted command line. -/
theorem qp_ids_always_equal_witness :
    parse_arguments (fun _ => 0) basic_args init_config = .ok basic_cfg ∧
    basic_cfg.qp_id = basic_cfg.dst_qp_id :=
  ⟨by rfl, qp_ids_always_equal (fun _ => 0) basic_args basic_cfg (by rfl)⟩

end RecoNic
